import Mathlib

/-
  Verification development for the apexdata telemetry backend.

  The binary wire codec (backend/src/telemetry/udpListener.ts and
  backend/src/telemetry/packetParsers.ts) and the session/lap state
  machine (backend/src/services/sessionManager.ts) are embedded
  shallowly below, and the stated properties are proved against the
  embedding.

  Modelling conventions:
  * A Node.js Buffer is a List Nat of bytes.  Each Buffer read method
    (readUInt8, readUInt16LE, ...) bounds-checks its offset and throws
    ERR_OUT_OF_RANGE when the read would run past the end of the
    buffer; this is modelled by Option-valued reads that return none
    exactly when Node would throw, and otherwise combine the bytes
    little-endian.
  * f32 fields are carried as their 4-byte little-endian bit patterns
    (a Nat); none of the decoder properties depend on the numeric
    value of a float, only on which bytes it was decoded from.
  * In the session manager, JavaScript numbers that are used
    arithmetically (lapDistance, trackLength) are modelled as
    rationals; Math.floor is the integer floor.  JS float values are
    rationals and floor / comparison / max on them agree exactly with
    the rational operations.
-/

namespace ApexData

/-- A length-4 JS array indexed 0..3 (fixed four-wheel order on the
    wire: RL, RR, FL, FR).  Field ek models element k. -/
structure Wheel4 (α : Type) where
  e0 : α
  e1 : α
  e2 : α
  e3 : α
deriving DecidableEq, Repr

/-- Twos-complement value of one byte (Buffer.readInt8 semantics). -/
def int8Val (b : Nat) : Int :=
  if b < 128 then (b : Int) else (b : Int) - 256

namespace Wire

/-- Little-endian value of the n bytes of buf starting at off
    (bytes past the end read as 0; reads are bounds-checked before
    this is used). -/
def leVal (buf : List Nat) (off : Nat) : Nat → Nat
  | 0 => 0
  | n + 1 => buf.getD off 0 + 256 * leVal buf (off + 1) n

/-- Buffer.readUInt8: one byte, bounds-checked. -/
def readUInt8 (buf : List Nat) (off : Nat) : Option Nat :=
  if off + 1 ≤ buf.length then some (buf.getD off 0) else none

/-- Buffer.readInt8: one byte, twos-complement signed. -/
def readInt8 (buf : List Nat) (off : Nat) : Option Int :=
  if off + 1 ≤ buf.length then
    some (if buf.getD off 0 < 128 then (buf.getD off 0 : Int)
          else (buf.getD off 0 : Int) - 256)
  else none

/-- Buffer.readUInt16LE. -/
def readUInt16LE (buf : List Nat) (off : Nat) : Option Nat :=
  if off + 2 ≤ buf.length then some (leVal buf off 2) else none

/-- Buffer.readUInt32LE. -/
def readUInt32LE (buf : List Nat) (off : Nat) : Option Nat :=
  if off + 4 ≤ buf.length then some (leVal buf off 4) else none

/-- Buffer.readBigUInt64LE. -/
def readUInt64LE (buf : List Nat) (off : Nat) : Option Nat :=
  if off + 8 ≤ buf.length then some (leVal buf off 8) else none

/-- Buffer.readFloatLE, represented by the 32-bit LE bit pattern. -/
def readFloatLE (buf : List Nat) (off : Nat) : Option Nat :=
  if off + 4 ≤ buf.length then some (leVal buf off 4) else none

/-- PacketHeader from types/telemetry.ts (f32 sessionTime carried as
    its bit pattern). -/
structure PacketHeader where
  packetFormat : Nat
  gameYear : Nat
  gameMajorVersion : Nat
  gameMinorVersion : Nat
  packetVersion : Nat
  packetId : Nat
  sessionUID : Nat
  sessionTime : Nat
  frameIdentifier : Nat
  overallFrameIdentifier : Nat
  playerCarIndex : Nat
  secondaryPlayerCarIndex : Nat
deriving DecidableEq, Repr

/-- TelemetryUDPListener.parsePacketHeader: sequential reads at the
    cumulative offsets produced by the source's offset updates. -/
def parsePacketHeader (buf : List Nat) : Option PacketHeader := do
  let packetFormat ← readUInt16LE buf 0
  let gameYear ← readUInt8 buf 2
  let gameMajorVersion ← readUInt8 buf 3
  let gameMinorVersion ← readUInt8 buf 4
  let packetVersion ← readUInt8 buf 5
  let packetId ← readUInt8 buf 6
  let sessionUID ← readUInt64LE buf 7
  let sessionTime ← readFloatLE buf 15
  let frameIdentifier ← readUInt32LE buf 19
  let overallFrameIdentifier ← readUInt32LE buf 23
  let playerCarIndex ← readUInt8 buf 27
  let secondaryPlayerCarIndex ← readUInt8 buf 28
  pure {
    packetFormat := packetFormat
    gameYear := gameYear
    gameMajorVersion := gameMajorVersion
    gameMinorVersion := gameMinorVersion
    packetVersion := packetVersion
    packetId := packetId
    sessionUID := sessionUID
    sessionTime := sessionTime
    frameIdentifier := frameIdentifier
    overallFrameIdentifier := overallFrameIdentifier
    playerCarIndex := playerCarIndex
    secondaryPlayerCarIndex := secondaryPlayerCarIndex
  }

/-- The header value decoded from a buffer of length at least 29. -/
def headerVal (buf : List Nat) : PacketHeader where
  packetFormat := leVal buf 0 2
  gameYear := buf.getD 2 0
  gameMajorVersion := buf.getD 3 0
  gameMinorVersion := buf.getD 4 0
  packetVersion := buf.getD 5 0
  packetId := buf.getD 6 0
  sessionUID := leVal buf 7 8
  sessionTime := leVal buf 15 4
  frameIdentifier := leVal buf 19 4
  overallFrameIdentifier := leVal buf 23 4
  playerCarIndex := buf.getD 27 0
  secondaryPlayerCarIndex := buf.getD 28 0




/-- CarTelemetryData from types/telemetry.ts; f32 fields carried as
    bit patterns. -/
structure CarTelemetryData where
  speed : Nat
  throttle : Nat
  steer : Nat
  brake : Nat
  clutch : Nat
  gear : Int
  engineRPM : Nat
  drs : Nat
  revLightsPercent : Nat
  revLightsBitValue : Nat
  brakesTemperature : Wheel4 Nat
  tyresSurfaceTemperature : Wheel4 Nat
  tyresInnerTemperature : Wheel4 Nat
  engineTemperature : Nat
  tyresPressure : Wheel4 Nat
  surfaceType : Wheel4 Nat
deriving DecidableEq, Repr

/-- TelemetryParser.parseCarTelemetryData.  The source first checks
    that 60 bytes remain and throws otherwise; each of the 4-iteration
    push loops for the wheel arrays is unrolled, element k holding the
    value pushed at iteration k.  Offsets are the cumulative values of
    the source's offset variable. -/
def parseCarTelemetryData (buf : List Nat) (off : Nat) :
    Option CarTelemetryData :=
  if off + 60 > buf.length then none
  else
  match readUInt16LE buf off with
  | none => none
  | some speed =>
  match readFloatLE buf (off + 2) with
  | none => none
  | some throttle =>
  match readFloatLE buf (off + 6) with
  | none => none
  | some steer =>
  match readFloatLE buf (off + 10) with
  | none => none
  | some brake =>
  match readUInt8 buf (off + 14) with
  | none => none
  | some clutch =>
  match readInt8 buf (off + 15) with
  | none => none
  | some gear =>
  match readUInt16LE buf (off + 16) with
  | none => none
  | some engineRPM =>
  match readUInt8 buf (off + 18) with
  | none => none
  | some drs =>
  match readUInt8 buf (off + 19) with
  | none => none
  | some revLightsPercent =>
  match readUInt16LE buf (off + 20) with
  | none => none
  | some revLightsBitValue =>
  match readUInt16LE buf (off + 22) with
  | none => none
  | some bt0 =>
  match readUInt16LE buf (off + 24) with
  | none => none
  | some bt1 =>
  match readUInt16LE buf (off + 26) with
  | none => none
  | some bt2 =>
  match readUInt16LE buf (off + 28) with
  | none => none
  | some bt3 =>
  match readUInt8 buf (off + 30) with
  | none => none
  | some st0 =>
  match readUInt8 buf (off + 31) with
  | none => none
  | some st1 =>
  match readUInt8 buf (off + 32) with
  | none => none
  | some st2 =>
  match readUInt8 buf (off + 33) with
  | none => none
  | some st3 =>
  match readUInt8 buf (off + 34) with
  | none => none
  | some it0 =>
  match readUInt8 buf (off + 35) with
  | none => none
  | some it1 =>
  match readUInt8 buf (off + 36) with
  | none => none
  | some it2 =>
  match readUInt8 buf (off + 37) with
  | none => none
  | some it3 =>
  match readUInt16LE buf (off + 38) with
  | none => none
  | some engineTemperature =>
  match readFloatLE buf (off + 40) with
  | none => none
  | some tp0 =>
  match readFloatLE buf (off + 44) with
  | none => none
  | some tp1 =>
  match readFloatLE buf (off + 48) with
  | none => none
  | some tp2 =>
  match readFloatLE buf (off + 52) with
  | none => none
  | some tp3 =>
  match readUInt8 buf (off + 56) with
  | none => none
  | some su0 =>
  match readUInt8 buf (off + 57) with
  | none => none
  | some su1 =>
  match readUInt8 buf (off + 58) with
  | none => none
  | some su2 =>
  match readUInt8 buf (off + 59) with
  | none => none
  | some su3 =>
  some {
    speed := speed
    throttle := throttle
    steer := steer
    brake := brake
    clutch := clutch
    gear := gear
    engineRPM := engineRPM
    drs := drs
    revLightsPercent := revLightsPercent
    revLightsBitValue := revLightsBitValue
    brakesTemperature := ⟨bt0, bt1, bt2, bt3⟩
    tyresSurfaceTemperature := ⟨st0, st1, st2, st3⟩
    tyresInnerTemperature := ⟨it0, it1, it2, it3⟩
    engineTemperature := engineTemperature
    tyresPressure := ⟨tp0, tp1, tp2, tp3⟩
    surfaceType := ⟨su0, su1, su2, su3⟩
  }

/-- The per-car record value decoded from 60 in-bounds bytes at off:
    the exact cumulative-offset layout of the wire format. -/
def carVal (buf : List Nat) (off : Nat) : CarTelemetryData where
  speed := leVal buf off 2
  throttle := leVal buf (off + 2) 4
  steer := leVal buf (off + 6) 4
  brake := leVal buf (off + 10) 4
  clutch := buf.getD (off + 14) 0
  gear := int8Val (buf.getD (off + 15) 0)
  engineRPM := leVal buf (off + 16) 2
  drs := buf.getD (off + 18) 0
  revLightsPercent := buf.getD (off + 19) 0
  revLightsBitValue := leVal buf (off + 20) 2
  brakesTemperature :=
    ⟨leVal buf (off + 22) 2, leVal buf (off + 24) 2,
     leVal buf (off + 26) 2, leVal buf (off + 28) 2⟩
  tyresSurfaceTemperature :=
    ⟨buf.getD (off + 30) 0, buf.getD (off + 31) 0,
     buf.getD (off + 32) 0, buf.getD (off + 33) 0⟩
  tyresInnerTemperature :=
    ⟨buf.getD (off + 34) 0, buf.getD (off + 35) 0,
     buf.getD (off + 36) 0, buf.getD (off + 37) 0⟩
  engineTemperature := leVal buf (off + 38) 2
  tyresPressure :=
    ⟨leVal buf (off + 40) 4, leVal buf (off + 44) 4,
     leVal buf (off + 48) 4, leVal buf (off + 52) 4⟩
  surfaceType :=
    ⟨buf.getD (off + 56) 0, buf.getD (off + 57) 0,
     buf.getD (off + 58) 0, buf.getD (off + 59) 0⟩


/-- The 22-iteration per-car loop of parseCarTelemetryPacket: breaks
    (returning what was accumulated, with the offset reached) when
    fewer than 60 bytes remain. -/
def parseTelemetryCars (buf : List Nat) :
    Nat → Nat → Option (List CarTelemetryData × Nat)
  | offset, 0 => some ([], offset)
  | offset, n + 1 =>
    if offset + 60 > buf.length then some ([], offset)
    else
      match parseCarTelemetryData buf offset with
      | none => none
      | some car =>
        match parseTelemetryCars buf (offset + 60) n with
        | none => none
        | some (rest, fin) => some (car :: rest, fin)

structure PacketCarTelemetryData where
  header : PacketHeader
  carTelemetryData : List CarTelemetryData
  mfdPanelIndex : Nat
  mfdPanelIndexSecondaryPlayer : Nat
  suggestedGear : Int
deriving DecidableEq, Repr

/-- TelemetryParser.parseCarTelemetryPacket.  The size-mismatch
    console.warn only logs; the three trailing reads are each guarded
    by offset < buffer.length in the source, so the guarded in-bounds
    readUInt8/readInt8 calls cannot fail and are written directly. -/
def parseCarTelemetryPacket (buf : List Nat) (header : PacketHeader) :
    Option PacketCarTelemetryData :=
  match parseTelemetryCars buf 29 22 with
  | none => none
  | some (cars, off0) =>
    let (mfdPanelIndex, off1) :=
      if off0 < buf.length then (buf.getD off0 0, off0 + 1) else (0, off0)
    let (mfdPanelIndexSecondaryPlayer, off2) :=
      if off1 < buf.length then (buf.getD off1 0, off1 + 1) else (0, off1)
    let suggestedGear : Int :=
      if off2 < buf.length then int8Val (buf.getD off2 0) else 0
    some {
      header := header
      carTelemetryData := cars
      mfdPanelIndex := mfdPanelIndex
      mfdPanelIndexSecondaryPlayer := mfdPanelIndexSecondaryPlayer
      suggestedGear := suggestedGear
    }

/-- LapData from types/telemetry.ts; f32 fields carried as bit
    patterns. -/
structure LapData where
  lastLapTimeInMS : Nat
  currentLapTimeInMS : Nat
  sector1TimeMSPart : Nat
  sector1TimeMinutesPart : Nat
  sector2TimeMSPart : Nat
  sector2TimeMinutesPart : Nat
  deltaToCarInFrontMSPart : Nat
  deltaToCarInFrontMinutesPart : Nat
  deltaToRaceLeaderMSPart : Nat
  deltaToRaceLeaderMinutesPart : Nat
  lapDistance : Nat
  totalDistance : Nat
  safetyCarDelta : Nat
  carPosition : Nat
  currentLapNum : Nat
  pitStatus : Nat
  numPitStops : Nat
  sector : Nat
  currentLapInvalid : Nat
  penalties : Nat
  totalWarnings : Nat
  cornerCuttingWarnings : Nat
  numUnservedDriveThroughPens : Nat
  numUnservedStopGoPens : Nat
  gridPosition : Nat
  driverStatus : Nat
  resultStatus : Nat
  pitLaneTimerActive : Nat
  pitLaneTimeInLaneInMS : Nat
  pitStopTimerInMS : Nat
  pitStopShouldServePen : Nat
  speedTrapFastestSpeed : Nat
  speedTrapFastestLap : Nat
deriving DecidableEq, Repr

/-- TelemetryParser.parseLapData: 57 bytes of sequential reads at the
    cumulative offsets produced by the source's offset updates (this
    one has no explicit up-front size guard; a read past the end of
    the buffer fails). -/
def parseLapData (buf : List Nat) (off : Nat) : Option LapData :=
  match readUInt32LE buf off with
  | none => none
  | some lastLapTimeInMS =>
  match readUInt32LE buf (off + 4) with
  | none => none
  | some currentLapTimeInMS =>
  match readUInt16LE buf (off + 8) with
  | none => none
  | some sector1TimeMSPart =>
  match readUInt8 buf (off + 10) with
  | none => none
  | some sector1TimeMinutesPart =>
  match readUInt16LE buf (off + 11) with
  | none => none
  | some sector2TimeMSPart =>
  match readUInt8 buf (off + 13) with
  | none => none
  | some sector2TimeMinutesPart =>
  match readUInt16LE buf (off + 14) with
  | none => none
  | some deltaToCarInFrontMSPart =>
  match readUInt8 buf (off + 16) with
  | none => none
  | some deltaToCarInFrontMinutesPart =>
  match readUInt16LE buf (off + 17) with
  | none => none
  | some deltaToRaceLeaderMSPart =>
  match readUInt8 buf (off + 19) with
  | none => none
  | some deltaToRaceLeaderMinutesPart =>
  match readFloatLE buf (off + 20) with
  | none => none
  | some lapDistance =>
  match readFloatLE buf (off + 24) with
  | none => none
  | some totalDistance =>
  match readFloatLE buf (off + 28) with
  | none => none
  | some safetyCarDelta =>
  match readUInt8 buf (off + 32) with
  | none => none
  | some carPosition =>
  match readUInt8 buf (off + 33) with
  | none => none
  | some currentLapNum =>
  match readUInt8 buf (off + 34) with
  | none => none
  | some pitStatus =>
  match readUInt8 buf (off + 35) with
  | none => none
  | some numPitStops =>
  match readUInt8 buf (off + 36) with
  | none => none
  | some sector =>
  match readUInt8 buf (off + 37) with
  | none => none
  | some currentLapInvalid =>
  match readUInt8 buf (off + 38) with
  | none => none
  | some penalties =>
  match readUInt8 buf (off + 39) with
  | none => none
  | some totalWarnings =>
  match readUInt8 buf (off + 40) with
  | none => none
  | some cornerCuttingWarnings =>
  match readUInt8 buf (off + 41) with
  | none => none
  | some numUnservedDriveThroughPens =>
  match readUInt8 buf (off + 42) with
  | none => none
  | some numUnservedStopGoPens =>
  match readUInt8 buf (off + 43) with
  | none => none
  | some gridPosition =>
  match readUInt8 buf (off + 44) with
  | none => none
  | some driverStatus =>
  match readUInt8 buf (off + 45) with
  | none => none
  | some resultStatus =>
  match readUInt8 buf (off + 46) with
  | none => none
  | some pitLaneTimerActive =>
  match readUInt16LE buf (off + 47) with
  | none => none
  | some pitLaneTimeInLaneInMS =>
  match readUInt16LE buf (off + 49) with
  | none => none
  | some pitStopTimerInMS =>
  match readUInt8 buf (off + 51) with
  | none => none
  | some pitStopShouldServePen =>
  match readFloatLE buf (off + 52) with
  | none => none
  | some speedTrapFastestSpeed =>
  match readUInt8 buf (off + 56) with
  | none => none
  | some speedTrapFastestLap =>
  some {
    lastLapTimeInMS := lastLapTimeInMS
    currentLapTimeInMS := currentLapTimeInMS
    sector1TimeMSPart := sector1TimeMSPart
    sector1TimeMinutesPart := sector1TimeMinutesPart
    sector2TimeMSPart := sector2TimeMSPart
    sector2TimeMinutesPart := sector2TimeMinutesPart
    deltaToCarInFrontMSPart := deltaToCarInFrontMSPart
    deltaToCarInFrontMinutesPart := deltaToCarInFrontMinutesPart
    deltaToRaceLeaderMSPart := deltaToRaceLeaderMSPart
    deltaToRaceLeaderMinutesPart := deltaToRaceLeaderMinutesPart
    lapDistance := lapDistance
    totalDistance := totalDistance
    safetyCarDelta := safetyCarDelta
    carPosition := carPosition
    currentLapNum := currentLapNum
    pitStatus := pitStatus
    numPitStops := numPitStops
    sector := sector
    currentLapInvalid := currentLapInvalid
    penalties := penalties
    totalWarnings := totalWarnings
    cornerCuttingWarnings := cornerCuttingWarnings
    numUnservedDriveThroughPens := numUnservedDriveThroughPens
    numUnservedStopGoPens := numUnservedStopGoPens
    gridPosition := gridPosition
    driverStatus := driverStatus
    resultStatus := resultStatus
    pitLaneTimerActive := pitLaneTimerActive
    pitLaneTimeInLaneInMS := pitLaneTimeInLaneInMS
    pitStopTimerInMS := pitStopTimerInMS
    pitStopShouldServePen := pitStopShouldServePen
    speedTrapFastestSpeed := speedTrapFastestSpeed
    speedTrapFastestLap := speedTrapFastestLap
  }


/-- The 22-iteration per-car loop of parseLapDataPacket (57-byte
    records, same break-on-short policy). -/
def parseLapCars (buf : List Nat) :
    Nat → Nat → Option (List LapData × Nat)
  | offset, 0 => some ([], offset)
  | offset, n + 1 =>
    if offset + 57 > buf.length then some ([], offset)
    else
      match parseLapData buf offset with
      | none => none
      | some lap =>
        match parseLapCars buf (offset + 57) n with
        | none => none
        | some (rest, fin) => some (lap :: rest, fin)

structure PacketLapData where
  header : PacketHeader
  lapData : List LapData
  timeTrialPBCarIdx : Nat
  timeTrialRivalCarIdx : Nat
deriving DecidableEq, Repr

/-- TelemetryParser.parseLapDataPacket.  Unlike the telemetry packet
    parser, the two trailing reads are NOT guarded by a length check
    in the source: readUInt8 is called unconditionally at the offset
    reached after the car loop. -/
def parseLapDataPacket (buf : List Nat) (header : PacketHeader) :
    Option PacketLapData :=
  match parseLapCars buf 29 22 with
  | none => none
  | some (laps, off0) =>
  match readUInt8 buf off0 with
  | none => none
  | some timeTrialPBCarIdx =>
  match readUInt8 buf (off0 + 1) with
  | none => none
  | some timeTrialRivalCarIdx =>
  some {
    header := header
    lapData := laps
    timeTrialPBCarIdx := timeTrialPBCarIdx
    timeTrialRivalCarIdx := timeTrialRivalCarIdx
  }

end Wire

/-
  SessionManager (backend/src/services/sessionManager.ts), the
  session/lap state machine.  JS numbers are modelled by the exact
  type of the value that flows there from the wire decoder: unsigned
  integer fields as Nat, the signed gear as Int, f32-valued fields
  that are used arithmetically (lapDistance, trackLength) as ℚ;
  Math.floor is the integer floor ℚ → ℤ, exact on every JS float.
  Event emission is modelled by returning the ordered list of emitted
  events; a thrown Error is an Except.error result paired with the
  state as it was at the throw (the source throws before any
  mutation).  Date.now timestamps are not modelled (no property
  depends on them); uuidv4 generation is modelled by the fresh
  counter nextId.
-/
namespace SM

/-- CarTelemetryData as consumed by the session manager (same fields
    as the wire record; f32 values as rationals). -/
structure CarTelemetryData where
  speed : Nat
  throttle : ℚ
  steer : ℚ
  brake : ℚ
  clutch : Nat
  gear : Int
  engineRPM : Nat
  drs : Nat
  revLightsPercent : Nat
  revLightsBitValue : Nat
  brakesTemperature : Wheel4 Nat
  tyresSurfaceTemperature : Wheel4 Nat
  tyresInnerTemperature : Wheel4 Nat
  engineTemperature : Nat
  tyresPressure : Wheel4 ℚ
  surfaceType : Wheel4 Nat
deriving DecidableEq, Repr

/-- The LapData fields read by the session manager (the full wire
    record carries many more; only these five are consulted). -/
structure LapData where
  lastLapTimeInMS : Nat
  currentLapTimeInMS : Nat
  lapDistance : ℚ
  currentLapNum : Nat
  currentLapInvalid : Nat
  driverStatus : Nat
deriving DecidableEq, Repr

/-- Session record (createdAt/endedAt timestamps and free-form
    metadata are not modelled; no claim depends on them). -/
structure Session where
  id : Nat
  name : String
  playerName : String
  track : Option String
  car : Option String
  sessionType : String
  totalLaps : Nat
  isActive : Bool
deriving DecidableEq, Repr

/-- Lap record (the sector-time fields are never written by the
    session manager and are not modelled; createdAt likewise). -/
structure Lap where
  id : Nat
  sessionId : Nat
  lapNumber : Nat
  lapTimeMs : Option Nat
  isValid : Bool
deriving DecidableEq, Repr

structure TelemetryDataPoint where
  sessionId : Nat
  lapId : Nat
  distanceFromStart : Int
  lapDistance : ℚ
  speed : Nat
  throttle : ℚ
  brake : ℚ
  steer : ℚ
  gear : Int
  engineRpm : Nat
  drs : Nat
  engineTemp : Nat
  brakeTempRl : Nat
  brakeTempRr : Nat
  brakeTempFl : Nat
  brakeTempFr : Nat
  tyreSurfaceTempRl : Nat
  tyreSurfaceTempRr : Nat
  tyreSurfaceTempFl : Nat
  tyreSurfaceTempFr : Nat
  tyreInnerTempRl : Nat
  tyreInnerTempRr : Nat
  tyreInnerTempFl : Nat
  tyreInnerTempFr : Nat
  tyrePressureRl : ℚ
  tyrePressureRr : ℚ
  tyrePressureFl : ℚ
  tyrePressureFr : ℚ
  revLightsPercent : Nat
  clutch : Nat
  surfaceTypeRl : Nat
  surfaceTypeRr : Nat
  surfaceTypeFl : Nat
  surfaceTypeFr : Nat
deriving DecidableEq, Repr

inductive SMEvent
  | sessionStarted (session : Session)
  | sessionEnded (session : Session)
  | lapStarted (lap : Lap)
  | lapCompleted (lap : Lap)
  | telemetryStored (dataPoint : TelemetryDataPoint)
deriving DecidableEq, Repr

inductive SMError
  | sessionAlreadyActive
  | noActiveSession
deriving DecidableEq, Repr

/-- The instance fields of SessionManager.  nextId models the uuid
    generator (fresh value per generateId call). -/
structure SMState where
  currentSession : Option Session
  currentLap : Option Lap
  lastLapNumber : Nat
  lastDistance : ℚ
  isInFlyingLap : Bool
  trackLength : ℚ
  lastStoredDistance : Int
  nextId : Nat
deriving DecidableEq, Repr

/-- Field initializers of SessionManager. -/
def initialState : SMState where
  currentSession := none
  currentLap := none
  lastLapNumber := 0
  lastDistance := 0
  isInFlyingLap := false
  trackLength := 0
  lastStoredDistance := -1
  nextId := 0

/-- Store data every 1 metre. -/
def DISTANCE_INTERVAL : Int := 1

/-- The test this.currentSession?.isActive. -/
def sessionIsActive (s : SMState) : Bool :=
  match s.currentSession with
  | some sess => sess.isActive
  | none => false

structure StartOptions where
  track : Option String
  car : Option String
  sessionType : Option String
deriving DecidableEq, Repr

/-- SessionManager.startSession.  Throws before any mutation when a
    session is active; otherwise installs the new session and resets
    the per-lap tracking fields. -/
def startSession (name playerName : String) (options : StartOptions)
    (s : SMState) : SMState × List SMEvent × Except SMError Session :=
  if sessionIsActive s then
    (s, [], Except.error SMError.sessionAlreadyActive)
  else
    let session : Session := {
      id := s.nextId
      name := name
      playerName := playerName
      track := options.track
      car := options.car
      sessionType := options.sessionType.getD "custom"
      totalLaps := 0
      isActive := true
    }
    ({ s with
        currentSession := some session
        lastLapNumber := 0
        lastDistance := 0
        isInFlyingLap := false
        lastStoredDistance := -1
        nextId := s.nextId + 1 },
     [SMEvent.sessionStarted session], Except.ok session)

/-- SessionManager.endSession.  Throws before any mutation when no
    session is active; otherwise emits sessionEnded with the
    deactivated copy and clears the tracking fields the source
    clears (lastStoredDistance, lastDistance and trackLength are NOT
    reset). -/
def endSession (s : SMState) :
    SMState × List SMEvent × Except SMError Session :=
  match s.currentSession with
  | some sess =>
    if sess.isActive then
      let session : Session := { sess with isActive := false }
      ({ s with
          currentSession := none
          currentLap := none
          lastLapNumber := 0
          isInFlyingLap := false },
       [SMEvent.sessionEnded session], Except.ok session)
    else (s, [], Except.error SMError.noActiveSession)
  | none => (s, [], Except.error SMError.noActiveSession)

/-- The start-new-lap tail of handleLapChange. -/
def startNewLap (lapData : LapData) (sess : Session) (s : SMState) :
    SMState × List SMEvent :=
  let newLap : Lap := {
    id := s.nextId
    sessionId := sess.id
    lapNumber := lapData.currentLapNum
    lapTimeMs := none
    isValid := true
  }
  ({ s with
      currentLap := some newLap
      lastStoredDistance := -1
      nextId := s.nextId + 1 },
   [SMEvent.lapStarted newLap])

/-- SessionManager.handleLapChange.  If a current lap exists and the
    frame carries a nonzero completed-lap time: complete it, emit
    lapCompleted, bump totalLaps, then auto-end the session and
    return without starting a new lap (the session is active whenever
    this runs from processTelemetryData, so the inner endSession
    cannot fail; its Except component is dropped).  Otherwise start a
    new lap. -/
def handleLapChange (lapData : LapData) (s : SMState) :
    SMState × List SMEvent :=
  match s.currentSession with
  | none => (s, [])
  | some sess =>
    match s.currentLap with
    | some lap =>
      if 0 < lapData.lastLapTimeInMS then
        let lap' : Lap := { lap with
          lapTimeMs := some lapData.lastLapTimeInMS
          isValid := lapData.currentLapInvalid == 0 }
        let s1 := { s with
          currentLap := some lap'
          currentSession := some { sess with totalLaps := sess.totalLaps + 1 } }
        let (s2, evs, _) := endSession s1
        (s2, SMEvent.lapCompleted lap' :: evs)
      else startNewLap lapData sess s
    | none => startNewLap lapData sess s

/-- The TelemetrySample literal built by storeTelemetryIfNeeded:
    every wheel-array element k feeds the field with the k-th wheel
    suffix (0 = RL, 1 = RR, 2 = FL, 3 = FR). -/
def mkDataPoint (telemetryData : CarTelemetryData) (lapData : LapData)
    (sess : Session) (lap : Lap) : TelemetryDataPoint where
  sessionId := sess.id
  lapId := lap.id
  distanceFromStart := ⌊lapData.lapDistance⌋
  lapDistance := lapData.lapDistance
  speed := telemetryData.speed
  throttle := telemetryData.throttle
  brake := telemetryData.brake
  steer := telemetryData.steer
  gear := telemetryData.gear
  engineRpm := telemetryData.engineRPM
  drs := telemetryData.drs
  engineTemp := telemetryData.engineTemperature
  brakeTempRl := telemetryData.brakesTemperature.e0
  brakeTempRr := telemetryData.brakesTemperature.e1
  brakeTempFl := telemetryData.brakesTemperature.e2
  brakeTempFr := telemetryData.brakesTemperature.e3
  tyreSurfaceTempRl := telemetryData.tyresSurfaceTemperature.e0
  tyreSurfaceTempRr := telemetryData.tyresSurfaceTemperature.e1
  tyreSurfaceTempFl := telemetryData.tyresSurfaceTemperature.e2
  tyreSurfaceTempFr := telemetryData.tyresSurfaceTemperature.e3
  tyreInnerTempRl := telemetryData.tyresInnerTemperature.e0
  tyreInnerTempRr := telemetryData.tyresInnerTemperature.e1
  tyreInnerTempFl := telemetryData.tyresInnerTemperature.e2
  tyreInnerTempFr := telemetryData.tyresInnerTemperature.e3
  tyrePressureRl := telemetryData.tyresPressure.e0
  tyrePressureRr := telemetryData.tyresPressure.e1
  tyrePressureFl := telemetryData.tyresPressure.e2
  tyrePressureFr := telemetryData.tyresPressure.e3
  revLightsPercent := telemetryData.revLightsPercent
  clutch := telemetryData.clutch
  surfaceTypeRl := telemetryData.surfaceType.e0
  surfaceTypeRr := telemetryData.surfaceType.e1
  surfaceTypeFl := telemetryData.surfaceType.e2
  surfaceTypeFr := telemetryData.surfaceType.e3

/-- SessionManager.storeTelemetryIfNeeded: the DistanceSampler. -/
def storeTelemetryIfNeeded (telemetryData : CarTelemetryData)
    (lapData : LapData) (s : SMState) : SMState × List SMEvent :=
  match s.currentSession, s.currentLap with
  | some sess, some lap =>
    let currentDistance : Int := ⌊lapData.lapDistance⌋
    if currentDistance ≥ s.lastStoredDistance + DISTANCE_INTERVAL then
      let dataPoint : TelemetryDataPoint :=
        mkDataPoint telemetryData lapData sess lap
      ({ s with lastStoredDistance := currentDistance },
       [SMEvent.telemetryStored dataPoint])
    else (s, [])
  | _, _ => (s, [])

/-- SessionManager.processTelemetryData: early return when no active
    session, then flying-lap flag, track-length estimate, lap-change
    handling, distance sampling, and the trailing lastLapNumber /
    lastDistance updates (which run even when the lap change just
    auto-ended the session). -/
def processTelemetryData (telemetryData : CarTelemetryData)
    (lapData : LapData) (_header : Wire.PacketHeader) (s : SMState) :
    SMState × List SMEvent :=
  if ¬ sessionIsActive s then (s, [])
  else
    let s1 := { s with isInFlyingLap := lapData.driverStatus == 1 }
    let s2 :=
      if s1.trackLength < lapData.lapDistance then
        { s1 with trackLength := lapData.lapDistance }
      else s1
    let r3 :=
      if lapData.currentLapNum ≠ s2.lastLapNumber ∧
          0 < lapData.currentLapNum then
        handleLapChange lapData s2
      else (s2, [])
    let r4 :=
      if r3.1.isInFlyingLap ∧ r3.1.currentLap.isSome then
        storeTelemetryIfNeeded telemetryData lapData r3.1
      else (r3.1, [])
    ({ r4.1 with
        lastLapNumber := lapData.currentLapNum
        lastDistance := lapData.lapDistance },
     r3.2 ++ r4.2)

/-- SessionManager.getSessionStatus (a pure read). -/
structure SessionStatus where
  hasActiveSession : Bool
  currentSession : Option Session
  currentLap : Option Lap
  isInFlyingLap : Bool
  trackLength : ℚ
deriving DecidableEq, Repr

def getSessionStatus (s : SMState) : SessionStatus where
  hasActiveSession := sessionIsActive s
  currentSession := s.currentSession
  currentLap := s.currentLap
  isInFlyingLap := s.isInFlyingLap
  trackLength := s.trackLength

/-- Fold of processTelemetryData over a list of updates, collecting
    the emitted events in order. -/
def runUpdates (s : SMState) :
    List (CarTelemetryData × LapData × Wire.PacketHeader) →
    SMState × List SMEvent
  | [] => (s, [])
  | (td, ld, h) :: rest =>
    let (s', evs) := processTelemetryData td ld h s
    let (s'', evs') := runUpdates s' rest
    (s'', evs ++ evs')

/-- The distanceFromStart values of the telemetryStored events of a
    trace, in emission order. -/
def storedDistances (evs : List SMEvent) : List Int :=
  evs.filterMap fun e =>
    match e with
    | SMEvent.telemetryStored dp => some dp.distanceFromStart
    | _ => none

/-- Modelled from the spec (section 4.2, sampling protocol), as the
    reference for the sampling refinement: compute d = floor of the
    lap distance; emit d and move the threshold when d is at least
    one past the last stored distance, else emit nothing. -/
def sampleSpec (last : Int) : List ℚ → List Int
  | [] => []
  | d :: ds =>
    if ⌊d⌋ ≥ last + 1 then ⌊d⌋ :: sampleSpec ⌊d⌋ ds
    else sampleSpec last ds

/-- States reachable from the initial SessionManager by any sequence
    of lifecycle calls and updates (failed calls included; they
    return the state unchanged). -/
inductive Reachable : SMState → Prop
  | init : Reachable initialState
  | start (name playerName : String) (options : StartOptions)
      (s : SMState) : Reachable s →
      Reachable (startSession name playerName options s).1
  | stop (s : SMState) : Reachable s → Reachable (endSession s).1
  | update (telemetryData : CarTelemetryData) (lapData : LapData)
      (header : Wire.PacketHeader) (s : SMState) : Reachable s →
      Reachable (processTelemetryData telemetryData lapData header s).1

/-
  Concrete example values, used by the closed instances of the
  theorems below (an all-zero telemetry frame and header, a frame
  that starts lap 1 of a flying lap, and a frame that carries the
  completed time of that lap).
-/

def exTd : CarTelemetryData :=
  ⟨0, 0, 0, 0, 0, 0, 0, 0, 0, 0, ⟨0, 0, 0, 0⟩, ⟨0, 0, 0, 0⟩,
   ⟨0, 0, 0, 0⟩, 0, ⟨0, 0, 0, 0⟩, ⟨0, 0, 0, 0⟩⟩

def exHd : Wire.PacketHeader := ⟨0, 0, 0, 0, 0, 0, 0, 0, 0, 0, 0, 0⟩

def exLapStart : LapData where
  lastLapTimeInMS := 0
  currentLapTimeInMS := 0
  lapDistance := 0
  currentLapNum := 1
  currentLapInvalid := 0
  driverStatus := 1

def exLapDone : LapData where
  lastLapTimeInMS := 85000
  currentLapTimeInMS := 0
  lapDistance := 0
  currentLapNum := 2
  currentLapInvalid := 0
  driverStatus := 1

def exActive : SMState :=
  (startSession "S1" "Alice" ⟨none, none, none⟩ initialState).1

def exInLap : SMState :=
  (processTelemetryData exTd exLapStart exHd exActive).1

def exSession : Session where
  id := 0
  name := "S1"
  playerName := "Alice"
  track := none
  car := none
  sessionType := "custom"
  totalLaps := 0
  isActive := true

def exLap : Lap where
  id := 1
  sessionId := 0
  lapNumber := 1
  lapTimeMs := none
  isValid := true

/-- An in-lap frame of lap 1 at the given lap distance. -/
def exRunLd (d : ℚ) : LapData where
  lastLapTimeInMS := 0
  currentLapTimeInMS := 0
  lapDistance := d
  currentLapNum := 1
  currentLapInvalid := 0
  driverStatus := 1

/-- Three within-lap updates with a non-monotonic distance trace. -/
def exUpdates : List (CarTelemetryData × LapData × Wire.PacketHeader) :=
  [(exTd, exRunLd (14 / 10), exHd),
   (exTd, exRunLd (12 / 10), exHd),
   (exTd, exRunLd (37 / 10), exHd)]

end SM

namespace Wire

lemma parsePacketHeader_ok (buf : List Nat) (h : 29 ≤ buf.length) :
    parsePacketHeader buf = some (headerVal buf) := by
  have h2 : 0 + 2 ≤ buf.length := by omega
  have h3 : 2 + 1 ≤ buf.length := by omega
  have h4 : 3 + 1 ≤ buf.length := by omega
  have h5 : 4 + 1 ≤ buf.length := by omega
  have h6 : 5 + 1 ≤ buf.length := by omega
  have h7 : 6 + 1 ≤ buf.length := by omega
  have h15 : 7 + 8 ≤ buf.length := by omega
  have h19 : 15 + 4 ≤ buf.length := by omega
  have h23 : 19 + 4 ≤ buf.length := by omega
  have h27 : 23 + 4 ≤ buf.length := by omega
  have h28 : 27 + 1 ≤ buf.length := by omega
  have h29 : 28 + 1 ≤ buf.length := by omega
  simp [parsePacketHeader, readUInt8, readUInt16LE, readUInt32LE,
    readUInt64LE, readFloatLE, h2, h3, h4, h5, h6, h7, h15, h19, h23,
    h27, h28, h29, headerVal]

lemma parsePacketHeader_len (buf : List Nat) (ph : PacketHeader)
    (h : parsePacketHeader buf = some ph) : 29 ≤ buf.length := by
  by_contra hlt
  push_neg at hlt
  simp only [parsePacketHeader, Option.bind_eq_bind, Option.bind_eq_some,
    readUInt8, readUInt16LE, readUInt32LE, readUInt64LE, readFloatLE] at h
  obtain ⟨_, _, _, _, _, _, _, _, _, _, _, _, _, _, _, _, _, _, _, _, _, _,
    _, hlast, -⟩ := h
  rw [if_neg (by omega)] at hlast
  exact Option.noConfusion hlast

lemma parsePacketHeader_short (buf : List Nat) (h : buf.length < 29) :
    parsePacketHeader buf = none := by
  cases hp : parsePacketHeader buf with
  | none => rfl
  | some ph => exact absurd (parsePacketHeader_len buf ph hp) (by omega)

lemma parseCarTelemetryData_ok (buf : List Nat) (off : Nat)
    (h : off + 60 ≤ buf.length) :
    parseCarTelemetryData buf off = some (carVal buf off) := by
  have c1 : off + 2 ≤ buf.length := by omega
  have c2 : off + 2 + 4 ≤ buf.length := by omega
  have c3 : off + 6 + 4 ≤ buf.length := by omega
  have c4 : off + 10 + 4 ≤ buf.length := by omega
  have c5 : off + 14 + 1 ≤ buf.length := by omega
  have c6 : off + 15 + 1 ≤ buf.length := by omega
  have c7 : off + 16 + 2 ≤ buf.length := by omega
  have c8 : off + 18 + 1 ≤ buf.length := by omega
  have c9 : off + 19 + 1 ≤ buf.length := by omega
  have c10 : off + 20 + 2 ≤ buf.length := by omega
  have c11 : off + 22 + 2 ≤ buf.length := by omega
  have c12 : off + 24 + 2 ≤ buf.length := by omega
  have c13 : off + 26 + 2 ≤ buf.length := by omega
  have c14 : off + 28 + 2 ≤ buf.length := by omega
  have c15 : off + 30 + 1 ≤ buf.length := by omega
  have c16 : off + 31 + 1 ≤ buf.length := by omega
  have c17 : off + 32 + 1 ≤ buf.length := by omega
  have c18 : off + 33 + 1 ≤ buf.length := by omega
  have c19 : off + 34 + 1 ≤ buf.length := by omega
  have c20 : off + 35 + 1 ≤ buf.length := by omega
  have c21 : off + 36 + 1 ≤ buf.length := by omega
  have c22 : off + 37 + 1 ≤ buf.length := by omega
  have c23 : off + 38 + 2 ≤ buf.length := by omega
  have c24 : off + 40 + 4 ≤ buf.length := by omega
  have c25 : off + 44 + 4 ≤ buf.length := by omega
  have c26 : off + 48 + 4 ≤ buf.length := by omega
  have c27 : off + 52 + 4 ≤ buf.length := by omega
  have c28 : off + 56 + 1 ≤ buf.length := by omega
  have c29 : off + 57 + 1 ≤ buf.length := by omega
  have c30 : off + 58 + 1 ≤ buf.length := by omega
  have c31 : off + 59 + 1 ≤ buf.length := by omega
  have hg : ¬ (off + 60 > buf.length) := by omega
  simp [parseCarTelemetryData, readUInt8, readInt8, readUInt16LE,
    readFloatLE, hg, c1, c2, c3, c4, c5, c6, c7, c8, c9, c10, c11, c12,
    c13, c14, c15, c16, c17, c18, c19, c20, c21, c22, c23, c24, c25,
    c26, c27, c28, c29, c30, c31, carVal, int8Val]

lemma parseLapData_ok (buf : List Nat) (off : Nat)
    (h : off + 57 ≤ buf.length) :
    ∃ v, parseLapData buf off = some v := by
  have c1 : off + 4 ≤ buf.length := by omega
  have c2 : off + 4 + 4 ≤ buf.length := by omega
  have c3 : off + 8 + 2 ≤ buf.length := by omega
  have c4 : off + 10 + 1 ≤ buf.length := by omega
  have c5 : off + 11 + 2 ≤ buf.length := by omega
  have c6 : off + 13 + 1 ≤ buf.length := by omega
  have c7 : off + 14 + 2 ≤ buf.length := by omega
  have c8 : off + 16 + 1 ≤ buf.length := by omega
  have c9 : off + 17 + 2 ≤ buf.length := by omega
  have c10 : off + 19 + 1 ≤ buf.length := by omega
  have c11 : off + 20 + 4 ≤ buf.length := by omega
  have c12 : off + 24 + 4 ≤ buf.length := by omega
  have c13 : off + 28 + 4 ≤ buf.length := by omega
  have c14 : off + 32 + 1 ≤ buf.length := by omega
  have c15 : off + 33 + 1 ≤ buf.length := by omega
  have c16 : off + 34 + 1 ≤ buf.length := by omega
  have c17 : off + 35 + 1 ≤ buf.length := by omega
  have c18 : off + 36 + 1 ≤ buf.length := by omega
  have c19 : off + 37 + 1 ≤ buf.length := by omega
  have c20 : off + 38 + 1 ≤ buf.length := by omega
  have c21 : off + 39 + 1 ≤ buf.length := by omega
  have c22 : off + 40 + 1 ≤ buf.length := by omega
  have c23 : off + 41 + 1 ≤ buf.length := by omega
  have c24 : off + 42 + 1 ≤ buf.length := by omega
  have c25 : off + 43 + 1 ≤ buf.length := by omega
  have c26 : off + 44 + 1 ≤ buf.length := by omega
  have c27 : off + 45 + 1 ≤ buf.length := by omega
  have c28 : off + 46 + 1 ≤ buf.length := by omega
  have c29 : off + 47 + 2 ≤ buf.length := by omega
  have c30 : off + 49 + 2 ≤ buf.length := by omega
  have c31 : off + 51 + 1 ≤ buf.length := by omega
  have c32 : off + 52 + 4 ≤ buf.length := by omega
  have c33 : off + 56 + 1 ≤ buf.length := by omega
  simp [parseLapData, readUInt8, readUInt16LE, readUInt32LE,
    readFloatLE, c1, c2, c3, c4, c5, c6, c7, c8, c9, c10, c11, c12,
    c13, c14, c15, c16, c17, c18, c19, c20, c21, c22, c23, c24, c25,
    c26, c27, c28, c29, c30, c31, c32, c33]

lemma parseTelemetryCars_exact (buf : List Nat) :
    ∀ (m n offset : Nat), n ≤ m → buf.length = offset + 60 * n →
    ∃ cars, parseTelemetryCars buf offset m = some (cars, buf.length) ∧
      cars.length = n := by
  intro m
  induction m with
  | zero =>
    intro n offset hn hlen
    obtain rfl : n = 0 := Nat.le_zero.mp hn
    exact ⟨[], by simp [parseTelemetryCars]; omega, rfl⟩
  | succ m ih =>
    intro n offset hn hlen
    match n with
    | 0 =>
      refine ⟨[], ?_, rfl⟩
      have hg : offset + 60 > buf.length := by omega
      simp [parseTelemetryCars, hg]
      omega
    | Nat.succ k =>
      have hg : ¬ (offset + 60 > buf.length) := by
        have : 1 ≤ k + 1 := by omega
        nlinarith [hlen]
      obtain ⟨rest, hrest, hlenr⟩ :=
        ih k (offset + 60) (by omega) (by omega)
      refine ⟨carVal buf offset :: rest, ?_, by simp [hlenr]⟩
      simp [parseTelemetryCars, hg,
        parseCarTelemetryData_ok buf offset (by omega), hrest]

lemma parseLapCars_exact (buf : List Nat) :
    ∀ (m n offset : Nat), n ≤ m → buf.length = offset + 57 * n →
    ∃ laps, parseLapCars buf offset m = some (laps, buf.length) ∧
      laps.length = n := by
  intro m
  induction m with
  | zero =>
    intro n offset hn hlen
    obtain rfl : n = 0 := Nat.le_zero.mp hn
    exact ⟨[], by simp [parseLapCars]; omega, rfl⟩
  | succ m ih =>
    intro n offset hn hlen
    match n with
    | 0 =>
      refine ⟨[], ?_, rfl⟩
      have hg : offset + 57 > buf.length := by omega
      simp [parseLapCars, hg]
      omega
    | Nat.succ k =>
      have hg : ¬ (offset + 57 > buf.length) := by nlinarith [hlen]
      obtain ⟨v, hv⟩ := parseLapData_ok buf offset (by omega)
      obtain ⟨rest, hrest, hlenr⟩ :=
        ih k (offset + 57) (by omega) (by omega)
      refine ⟨v :: rest, ?_, by simp [hlenr]⟩
      simp [parseLapCars, hg, hv, hrest]

lemma parseCarTelemetryPacket_exact (buf : List Nat)
    (hdr : PacketHeader) (N : Nat) (hN : N ≤ 22)
    (hlen : buf.length = 29 + 60 * N) :
    ∃ p, parseCarTelemetryPacket buf hdr = some p ∧
      p.carTelemetryData.length = N := by
  obtain ⟨cars, hc, hcl⟩ :=
    parseTelemetryCars_exact buf 22 N 29 hN (by omega)
  refine ⟨{ header := hdr, carTelemetryData := cars,
            mfdPanelIndex := 0, mfdPanelIndexSecondaryPlayer := 0,
            suggestedGear := 0 }, ?_, hcl⟩
  simp [parseCarTelemetryPacket, hc]

lemma parseLapDataPacket_short (buf : List Nat) (hdr : PacketHeader)
    (N : Nat) (hN : N ≤ 22) (hlen : buf.length = 29 + 57 * N) :
    parseLapDataPacket buf hdr = none := by
  obtain ⟨laps, hl, -⟩ := parseLapCars_exact buf 22 N 29 hN (by omega)
  have hr : readUInt8 buf buf.length = none := by simp [readUInt8]
  simp [parseLapDataPacket, hl, hr]

/-- C5: parsePacketHeader (decodeHeader) reads exactly the fixed
    29-byte little-endian prefix — u16 format, u8 year, u8 major,
    u8 minor, u8 packetVersion, u8 packetId, u64 sessionUID,
    f32 sessionTime, u32 frameIdentifier, u32 overallFrameIdentifier,
    u8 playerCarIndex, u8 secondaryPlayerCarIndex (the value headerVal
    buf) — for every buffer of length at least 29, and fails
    (MalformedPacket, modelled as none) for every shorter buffer. -/
theorem decodeHeader_contract (buf : List Nat) :
    (29 ≤ buf.length → parsePacketHeader buf = some (headerVal buf)) ∧
    (buf.length < 29 → parsePacketHeader buf = none) :=
  ⟨fun h => parsePacketHeader_ok buf h,
   fun h => parsePacketHeader_short buf h⟩

theorem decodeHeader_contract_witness :
    ((29 : Nat) ≤ (List.replicate 29 0).length ∧
      parsePacketHeader (List.replicate 29 0) =
        some (headerVal (List.replicate 29 0))) ∧
    (([] : List Nat).length < 29 ∧ parsePacketHeader [] = none) :=
  ⟨⟨by simp, (decodeHeader_contract (List.replicate 29 0)).1 (by simp)⟩,
   ⟨by simp, (decodeHeader_contract []).2 (by simp)⟩⟩

/-- C6: decoding one per-car telemetry record from a buffer region of
    at least 60 bytes yields exactly the cumulative-offset layout
    carVal — speed u16 at +0, throttle f32 at +2, steer f32 at +6,
    brake f32 at +10, clutch u8 at +14, gear i8 at +15, rpm u16 at
    +16, drs u8 at +18, revLightsPercent u8 at +19, revLightsBits u16
    at +20, brakeTemp u16 at +22/+24/+26/+28, tyreSurfaceTemp u8 at
    +30..+33, tyreInnerTemp u8 at +34..+37, engineTemp u16 at +38,
    tyrePressure f32 at +40/+44/+48/+52, surfaceType u8 at +56..+59,
    all little-endian, wheel arrays in wire order — consuming exactly
    the 60 bytes at off..off+59. -/
theorem carTelemetryRecord_layout (buf : List Nat) (off : Nat)
    (h : off + 60 ≤ buf.length) :
    parseCarTelemetryData buf off = some (carVal buf off) :=
  parseCarTelemetryData_ok buf off h

theorem carTelemetryRecord_layout_witness :
    0 + 60 ≤ (List.range 60).length ∧
    parseCarTelemetryData (List.range 60) 0 =
      some (carVal (List.range 60) 0) :=
  ⟨by simp, carTelemetryRecord_layout (List.range 60) 0 (by simp)⟩

/-- C3 (divergence witness for the lap-data half): for every N below
    22, a telemetry body buffer of exactly 29 + 60N bytes decodes to
    exactly N car entries with no error; but a lap-data body buffer
    of exactly 29 + 57N bytes makes parseLapDataPacket FAIL (none,
    i.e. a thrown RangeError in Node), because the two trailing
    time-trial bytes are read unguarded at an offset past the end of
    the buffer — the code never returns the claimed N lap entries for
    such a buffer. -/
theorem truncatedBody_decode (N : Nat) (hN : N < 22) :
    (∀ (buf : List Nat) (hdr : PacketHeader),
      buf.length = 29 + 60 * N →
      ∃ p, parseCarTelemetryPacket buf hdr = some p ∧
        p.carTelemetryData.length = N) ∧
    (∀ (buf : List Nat) (hdr : PacketHeader),
      buf.length = 29 + 57 * N → parseLapDataPacket buf hdr = none) :=
  ⟨fun buf hdr hlen =>
      parseCarTelemetryPacket_exact buf hdr N (Nat.le_of_lt hN) hlen,
   fun buf hdr hlen =>
      parseLapDataPacket_short buf hdr N (Nat.le_of_lt hN) hlen⟩

theorem truncatedBody_decode_witness :
    (∃ p, parseCarTelemetryPacket (List.replicate 629 0)
        ⟨0, 0, 0, 0, 0, 0, 0, 0, 0, 0, 0, 0⟩ = some p ∧
      p.carTelemetryData.length = 10) ∧
    parseLapDataPacket (List.replicate 599 0)
      ⟨0, 0, 0, 0, 0, 0, 0, 0, 0, 0, 0, 0⟩ = none :=
  ⟨(truncatedBody_decode 10 (by decide)).1 _ _
      (by simp only [List.length_replicate]),
   (truncatedBody_decode 10 (by decide)).2 _ _
      (by simp only [List.length_replicate])⟩

end Wire

namespace SM

/-- C8: with no active session, processTelemetryData returns
    immediately: it emits no event and leaves the whole tracker state
    (current lap, last observed lap number, flying-lap flag, last
    stored distance, track length estimate) unchanged, for every
    telemetry frame, lap frame and header. -/
theorem processUpdate_noSession_noop (td : CarTelemetryData)
    (ld : LapData) (hd : Wire.PacketHeader) (s : SMState)
    (h : sessionIsActive s = false) :
    processTelemetryData td ld hd s = (s, []) := by
  simp [processTelemetryData, h]

theorem processUpdate_noSession_noop_witness :
    sessionIsActive initialState = false ∧
    processTelemetryData exTd exLapStart exHd initialState =
      (initialState, []) :=
  ⟨rfl, processUpdate_noSession_noop exTd exLapStart exHd initialState rfl⟩

/-- C4: the lifecycle operations raise exactly on protocol misuse:
    startSession fails with SessionAlreadyActive iff a session is
    currently active (whatever else the state holds), endSession
    fails with NoActiveSession iff no session is active, and calling
    endSession twice without an intervening startSession fails on the
    second call. -/
theorem lifecycle_misuse_iff :
    (∀ (name playerName : String) (options : StartOptions)
        (s : SMState),
      (startSession name playerName options s).2.2 =
        Except.error SMError.sessionAlreadyActive ↔
      sessionIsActive s = true) ∧
    (∀ s : SMState,
      (endSession s).2.2 = Except.error SMError.noActiveSession ↔
      sessionIsActive s = false) ∧
    (∀ s : SMState, sessionIsActive s = true →
      (endSession (endSession s).1).2.2 =
        Except.error SMError.noActiveSession) := by
  refine ⟨?_, ?_, ?_⟩
  · intro name playerName options s
    by_cases h : sessionIsActive s = true <;> simp [startSession, h]
  · intro s
    cases hcs : s.currentSession with
    | none => simp [endSession, sessionIsActive, hcs]
    | some sess =>
      cases hact : sess.isActive <;>
        simp [endSession, sessionIsActive, hcs, hact]
  · intro s h
    obtain ⟨sess, hcs⟩ : ∃ sess, s.currentSession = some sess := by
      cases hcs : s.currentSession with
      | none => rw [sessionIsActive, hcs] at h; exact absurd h (by simp)
      | some sess => exact ⟨sess, rfl⟩
    have hact : sess.isActive = true := by
      rw [sessionIsActive, hcs] at h; exact h
    simp [endSession, hcs, hact]

theorem lifecycle_misuse_iff_witness :
    ((startSession "x" "y" ⟨none, none, none⟩ exActive).2.2 =
      Except.error SMError.sessionAlreadyActive) ∧
    ((endSession initialState).2.2 =
      Except.error SMError.noActiveSession) ∧
    (sessionIsActive exActive = true ∧
      (endSession (endSession exActive).1).2.2 =
        Except.error SMError.noActiveSession) :=
  ⟨(lifecycle_misuse_iff.1 "x" "y" ⟨none, none, none⟩ exActive).mpr
      (by decide),
   (lifecycle_misuse_iff.2.1 initialState).mpr rfl,
   by decide, lifecycle_misuse_iff.2.2 exActive (by decide)⟩

/-- C10: a failed lifecycle call is atomic: when startSession or
    endSession returns an error, the tracker state is exactly what it
    was before the call and no event is emitted. -/
theorem lifecycle_failure_atomic :
    (∀ (name playerName : String) (options : StartOptions)
        (s : SMState) (e : SMError),
      (startSession name playerName options s).2.2 = Except.error e →
      startSession name playerName options s = (s, [], Except.error e)) ∧
    (∀ (s : SMState) (e : SMError),
      (endSession s).2.2 = Except.error e →
      endSession s = (s, [], Except.error e)) := by
  constructor
  · intro name playerName options s e h
    by_cases hs : sessionIsActive s = true
    · simp only [startSession, hs, if_true] at h ⊢
      simp at h
      simp [h]
    · simp [startSession, hs] at h
  · intro s e h
    cases hcs : s.currentSession with
    | none =>
      simp only [endSession, hcs] at h ⊢
      simp at h
      simp [h]
    | some sess =>
      cases hact : sess.isActive with
      | true => simp [endSession, hcs, hact] at h
      | false =>
        simp only [endSession, hcs, hact, if_neg] at h ⊢
        simp at h
        simp [h]

theorem lifecycle_failure_atomic_witness :
    ((startSession "x" "y" ⟨none, none, none⟩ exActive).2.2 =
        Except.error SMError.sessionAlreadyActive ∧
      startSession "x" "y" ⟨none, none, none⟩ exActive =
        (exActive, [], Except.error SMError.sessionAlreadyActive)) ∧
    ((endSession initialState).2.2 =
        Except.error SMError.noActiveSession ∧
      endSession initialState =
        (initialState, [], Except.error SMError.noActiveSession)) :=
  ⟨⟨rfl,
    lifecycle_failure_atomic.1 "x" "y" ⟨none, none, none⟩ exActive
      SMError.sessionAlreadyActive rfl⟩,
   ⟨rfl,
    lifecycle_failure_atomic.2 initialState
      SMError.noActiveSession rfl⟩⟩

/-- C1: with an active session and a current lap, an update whose
    currentLapNum is positive and differs from the last observed lap
    number and whose lastLapTimeInMS is nonzero emits exactly one
    lapCompleted (lap time set to lastLapTimeInMS, validity equal to
    currentLapInvalid == 0) followed by exactly one sessionEnded
    (with the lap counter incremented), starts no new lap, and leaves
    the tracker with no active session. -/
theorem lapCompletion_endsSession
    (td : CarTelemetryData) (ld : LapData) (hd : Wire.PacketHeader)
    (s : SMState) (sess : Session) (lap : Lap)
    (hsess : s.currentSession = some sess)
    (hact : sess.isActive = true)
    (hlap : s.currentLap = some lap)
    (hnum : ld.currentLapNum ≠ s.lastLapNumber)
    (hpos : 0 < ld.currentLapNum)
    (htime : 0 < ld.lastLapTimeInMS) :
    (processTelemetryData td ld hd s).2 =
      [SMEvent.lapCompleted { lap with
          lapTimeMs := some ld.lastLapTimeInMS
          isValid := ld.currentLapInvalid == 0 },
       SMEvent.sessionEnded { sess with
          totalLaps := sess.totalLaps + 1
          isActive := false }] ∧
    (getSessionStatus
        (processTelemetryData td ld hd s).1).hasActiveSession = false ∧
    (processTelemetryData td ld hd s).1.currentLap = none ∧
    (processTelemetryData td ld hd s).1.currentSession = none := by
  by_cases hTL : s.trackLength < ld.lapDistance <;>
    simp [processTelemetryData, handleLapChange, endSession,
      storeTelemetryIfNeeded, getSessionStatus, sessionIsActive,
      hsess, hact, hlap, hnum, hpos, htime, hTL]

lemma process_step_inlap (td : CarTelemetryData) (ld : LapData)
    (hd : Wire.PacketHeader) (s : SMState) (sess : Session) (lap : Lap)
    (hsess : s.currentSession = some sess) (hact : sess.isActive = true)
    (hlap : s.currentLap = some lap) (hds : ld.driverStatus = 1)
    (hnum : ld.currentLapNum = s.lastLapNumber) :
    storedDistances (processTelemetryData td ld hd s).2 =
      (if s.lastStoredDistance + 1 ≤ ⌊ld.lapDistance⌋
       then [⌊ld.lapDistance⌋] else []) ∧
    (processTelemetryData td ld hd s).1.currentSession = some sess ∧
    (processTelemetryData td ld hd s).1.currentLap = some lap ∧
    (processTelemetryData td ld hd s).1.lastLapNumber =
      s.lastLapNumber ∧
    (processTelemetryData td ld hd s).1.lastStoredDistance =
      (if s.lastStoredDistance + 1 ≤ ⌊ld.lapDistance⌋
       then ⌊ld.lapDistance⌋ else s.lastStoredDistance) := by
  by_cases hTL : s.trackLength < ld.lapDistance <;>
  by_cases hG : s.lastStoredDistance + 1 ≤ ⌊ld.lapDistance⌋ <;>
    simp [processTelemetryData, storeTelemetryIfNeeded, storedDistances,
      mkDataPoint, sessionIsActive, DISTANCE_INTERVAL, hsess, hact,
      hlap, hds, hnum, hTL, hG]

lemma runUpdates_sampler (sess : Session) (lap : Lap) :
    ∀ (us : List (CarTelemetryData × LapData × Wire.PacketHeader))
      (s : SMState),
    s.currentSession = some sess → sess.isActive = true →
    s.currentLap = some lap →
    (∀ u ∈ us, (u.2.1 : LapData).driverStatus = 1 ∧
        u.2.1.currentLapNum = s.lastLapNumber) →
    storedDistances (runUpdates s us).2 =
      sampleSpec s.lastStoredDistance
        (us.map fun u => u.2.1.lapDistance) := by
  intro us
  induction us with
  | nil => intro s _ _ _ _; simp [runUpdates, sampleSpec, storedDistances]
  | cons u us ih =>
    intro s hsess hact hlap hall
    obtain ⟨td, ld, hd⟩ := u
    obtain ⟨hds, hnum⟩ := hall (td, ld, hd) (by simp)
    obtain ⟨h1, h2, h3, h4, h5⟩ :=
      process_step_inlap td ld hd s sess lap hsess hact hlap hds hnum
    have hall' : ∀ u ∈ us, (u.2.1 : LapData).driverStatus = 1 ∧
        u.2.1.currentLapNum =
          (processTelemetryData td ld hd s).1.lastLapNumber := by
      intro v hv
      rw [h4]
      exact hall v (List.mem_cons_of_mem _ hv)
    have hrec := ih (processTelemetryData td ld hd s).1 h2 hact h3 hall'
    have hrun : storedDistances (runUpdates s ((td, ld, hd) :: us)).2 =
        storedDistances (processTelemetryData td ld hd s).2 ++
        storedDistances
          (runUpdates (processTelemetryData td ld hd s).1 us).2 := by
      simp [runUpdates, storedDistances]
    rw [hrun, h1, hrec, h5]
    by_cases hG : s.lastStoredDistance + 1 ≤ ⌊ld.lapDistance⌋ <;>
      simp [sampleSpec, hG]

lemma sampleSpec_chain (ds : List ℚ) :
    ∀ last : Int,
      List.Chain (fun a b => a + 1 ≤ b) last (sampleSpec last ds) := by
  induction ds with
  | nil => intro last; exact List.Chain.nil
  | cons d ds ih =>
    intro last
    by_cases h : last + 1 ≤ ⌊d⌋
    · rw [sampleSpec, if_pos h]
      exact List.Chain.cons h (ih ⌊d⌋)
    · rw [sampleSpec, if_neg h]
      exact ih last

lemma chain'_of_chain {α : Type} {R : α → α → Prop} {a : α}
    {l : List α} (h : List.Chain R a l) : List.Chain' R l := by
  cases l with
  | nil => exact List.chain'_nil
  | cons b t => exact (List.chain_cons.mp h).2

/-- C2: within one lap (active session, flying-lap status, current
    lap set, no lap-number change), the distances of the emitted
    samples refine the sampling protocol exactly — each emitted value
    is the floor of that update's lapDistance, an update emits
    nothing unless its floored distance reaches lastStoredDistance +
    1 — and the emitted sequence is strictly increasing with each
    consecutive pair (and the first value relative to the incoming
    threshold) at least 1 apart. -/
theorem sampling_monotone (sess : Session) (lap : Lap)
    (us : List (CarTelemetryData × LapData × Wire.PacketHeader))
    (s : SMState)
    (hsess : s.currentSession = some sess)
    (hact : sess.isActive = true)
    (hlap : s.currentLap = some lap)
    (hall : ∀ u ∈ us, (u.2.1 : LapData).driverStatus = 1 ∧
        u.2.1.currentLapNum = s.lastLapNumber) :
    storedDistances (runUpdates s us).2 =
      sampleSpec s.lastStoredDistance
        (us.map fun u => u.2.1.lapDistance) ∧
    List.Chain (fun a b => a + 1 ≤ b) s.lastStoredDistance
      (storedDistances (runUpdates s us).2) ∧
    List.Chain' (fun a b => a + 1 ≤ b)
      (storedDistances (runUpdates s us).2) := by
  have h := runUpdates_sampler sess lap us s hsess hact hlap hall
  have hc := sampleSpec_chain (us.map fun u => u.2.1.lapDistance)
    s.lastStoredDistance
  rw [h]
  exact ⟨rfl, hc, chain'_of_chain hc⟩

theorem sampling_monotone_witness :
    exInLap.currentSession = some exSession ∧
    exSession.isActive = true ∧
    exInLap.currentLap = some exLap ∧
    (∀ u ∈ exUpdates, (u.2.1 : LapData).driverStatus = 1 ∧
        u.2.1.currentLapNum = exInLap.lastLapNumber) ∧
    (storedDistances (runUpdates exInLap exUpdates).2 =
      sampleSpec exInLap.lastStoredDistance
        (exUpdates.map fun u => u.2.1.lapDistance) ∧
     List.Chain (fun a b => a + 1 ≤ b) exInLap.lastStoredDistance
      (storedDistances (runUpdates exInLap exUpdates).2) ∧
     List.Chain' (fun a b => a + 1 ≤ b)
      (storedDistances (runUpdates exInLap exUpdates).2)) :=
  ⟨by decide, by decide, by decide, by decide,
   sampling_monotone exSession exLap exUpdates exInLap
     (by decide) (by decide) (by decide) (by decide)⟩

theorem lapCompletion_endsSession_witness :
    exInLap.currentSession = some exSession ∧
    exSession.isActive = true ∧
    exInLap.currentLap = some exLap ∧
    exLapDone.currentLapNum ≠ exInLap.lastLapNumber ∧
    0 < exLapDone.currentLapNum ∧
    0 < exLapDone.lastLapTimeInMS ∧
    ((processTelemetryData exTd exLapDone exHd exInLap).2 =
      [SMEvent.lapCompleted { exLap with
          lapTimeMs := some exLapDone.lastLapTimeInMS
          isValid := exLapDone.currentLapInvalid == 0 },
       SMEvent.sessionEnded { exSession with
          totalLaps := exSession.totalLaps + 1
          isActive := false }] ∧
     (getSessionStatus
        (processTelemetryData exTd exLapDone exHd exInLap).1
        ).hasActiveSession = false ∧
     (processTelemetryData exTd exLapDone exHd exInLap).1.currentLap =
        none ∧
     (processTelemetryData exTd exLapDone exHd exInLap).1.currentSession =
        none) :=
  ⟨by decide, by decide, by decide, by decide, by decide, by decide,
   lapCompletion_endsSession exTd exLapDone exHd exInLap exSession exLap
     (by decide) (by decide) (by decide) (by decide) (by decide)
     (by decide)⟩

lemma handleLapChange_lastStored (ld : LapData) (s : SMState) :
    (handleLapChange ld s).1.lastStoredDistance = s.lastStoredDistance ∨
    (handleLapChange ld s).1.lastStoredDistance = -1 := by
  rcases hcs : s.currentSession with _ | sess
  · simp [handleLapChange, hcs]
  · rcases hcl : s.currentLap with _ | lap
    · simp [handleLapChange, hcs, hcl, startNewLap]
    · by_cases ht : 0 < ld.lastLapTimeInMS
      · cases hact : sess.isActive <;>
          simp [handleLapChange, hcs, hcl, ht, endSession, hact]
      · simp [handleLapChange, hcs, hcl, ht, startNewLap]

lemma handleLapChange_no_store (ld : LapData) (s : SMState)
    (dp : TelemetryDataPoint) :
    SMEvent.telemetryStored dp ∉ (handleLapChange ld s).2 := by
  rcases hcs : s.currentSession with _ | sess
  · simp [handleLapChange, hcs]
  · rcases hcl : s.currentLap with _ | lap
    · simp [handleLapChange, hcs, hcl, startNewLap]
    · by_cases ht : 0 < ld.lastLapTimeInMS
      · cases hact : sess.isActive <;>
          simp [handleLapChange, hcs, hcl, ht, endSession, hact]
      · simp [handleLapChange, hcs, hcl, ht, startNewLap]

lemma handleLapChange_lastStored_eq (ld : LapData) (s2 s : SMState)
    (hX : s2.lastStoredDistance = s.lastStoredDistance) :
    (handleLapChange ld s2).1.lastStoredDistance = s.lastStoredDistance ∨
    (handleLapChange ld s2).1.lastStoredDistance = -1 := by
  rcases handleLapChange_lastStored ld s2 with hh | hh
  · exact Or.inl (hh.trans hX)
  · exact Or.inr hh

lemma handleLapChange_lastStored_ge (ld : LapData) (s2 : SMState)
    (h2 : -1 ≤ s2.lastStoredDistance) :
    -1 ≤ (handleLapChange ld s2).1.lastStoredDistance := by
  rcases handleLapChange_lastStored ld s2 with hh | hh
  · rw [hh]; exact h2
  · rw [hh]

lemma store_emit (td : CarTelemetryData) (ld : LapData) (s : SMState)
    (dp : TelemetryDataPoint)
    (h : SMEvent.telemetryStored dp ∈ (storeTelemetryIfNeeded td ld s).2) :
    ∃ sess lap, s.currentSession = some sess ∧ s.currentLap = some lap ∧
      s.lastStoredDistance + 1 ≤ ⌊ld.lapDistance⌋ ∧
      dp = mkDataPoint td ld sess lap := by
  rcases hcs : s.currentSession with _ | sess
  · simp [storeTelemetryIfNeeded, hcs] at h
  · rcases hcl : s.currentLap with _ | lap
    · simp [storeTelemetryIfNeeded, hcs, hcl] at h
    · by_cases hG : s.lastStoredDistance + 1 ≤ ⌊ld.lapDistance⌋
      · simp [storeTelemetryIfNeeded, hcs, hcl, DISTANCE_INTERVAL, hG] at h
        exact ⟨sess, lap, rfl, rfl, hG, h⟩
      · simp [storeTelemetryIfNeeded, hcs, hcl, DISTANCE_INTERVAL, hG] at h

lemma process_emit (td : CarTelemetryData) (ld : LapData)
    (hd : Wire.PacketHeader) (s : SMState) (dp : TelemetryDataPoint)
    (h : SMEvent.telemetryStored dp ∈ (processTelemetryData td ld hd s).2) :
    ∃ s3, (s3.lastStoredDistance = s.lastStoredDistance ∨
           s3.lastStoredDistance = -1) ∧
      SMEvent.telemetryStored dp ∈ (storeTelemetryIfNeeded td ld s3).2 := by
  by_cases hs : sessionIsActive s = true
  case neg => simp [processTelemetryData, hs] at h
  case pos =>
    simp only [processTelemetryData, hs, not_true_eq_false, if_false,
      ite_false] at h
    repeat' split at h
    all_goals
      simp only [List.nil_append, List.append_nil, List.mem_append] at h
    all_goals try rcases h with h | h
    all_goals
      first
      | exact absurd h (handleLapChange_no_store ld _ dp)
      | exact absurd h (List.not_mem_nil _)
      | (refine ⟨_, ?_, h⟩
         first
         | exact Or.inl rfl
         | exact handleLapChange_lastStored_eq ld _ s rfl)

lemma store_lastStored (td : CarTelemetryData) (ld : LapData)
    (s : SMState) (h : -1 ≤ s.lastStoredDistance) :
    -1 ≤ (storeTelemetryIfNeeded td ld s).1.lastStoredDistance := by
  rcases hcs : s.currentSession with _ | sess
  · simpa [storeTelemetryIfNeeded, hcs] using h
  · rcases hcl : s.currentLap with _ | lap
    · simpa [storeTelemetryIfNeeded, hcs, hcl] using h
    · by_cases hG : s.lastStoredDistance + 1 ≤ ⌊ld.lapDistance⌋
      · simp [storeTelemetryIfNeeded, hcs, hcl, DISTANCE_INTERVAL, hG]
        omega
      · simpa [storeTelemetryIfNeeded, hcs, hcl, DISTANCE_INTERVAL, hG]
          using h

lemma process_lastStored (td : CarTelemetryData) (ld : LapData)
    (hd : Wire.PacketHeader) (s : SMState)
    (h : -1 ≤ s.lastStoredDistance) :
    -1 ≤ (processTelemetryData td ld hd s).1.lastStoredDistance := by
  by_cases hs : sessionIsActive s = true
  case neg => simpa [processTelemetryData, hs] using h
  case pos =>
    simp only [processTelemetryData, hs, not_true_eq_false, if_false,
      ite_false]
    repeat' split
    all_goals
      first
      | exact h
      | (apply store_lastStored
         first
         | exact h
         | exact handleLapChange_lastStored_ge ld _ h)
      | exact handleLapChange_lastStored_ge ld _ h

lemma reachable_lastStored (s : SMState) (h : Reachable s) :
    -1 ≤ s.lastStoredDistance := by
  induction h with
  | init => simp [initialState]
  | start name playerName options s _ ih =>
    by_cases hs : sessionIsActive s = true <;>
      simp [startSession, hs] <;> exact ih
  | stop s _ ih =>
    rcases hcs : s.currentSession with _ | sess
    · simpa [endSession, hcs] using ih
    · cases hact : sess.isActive <;>
        simpa [endSession, hcs, hact] using ih
  | update td ld hd s _ ih => exact process_lastStored td ld hd s ih

/-- C9: in every reachable tracker state, every TelemetrySample an
    update emits has distanceFromStart at least 0: lastStoredDistance
    is -1 at session start and at lap start, never below -1, and the
    sampler only emits a floored distance that is at least
    lastStoredDistance + 1. -/
theorem samples_nonneg (s : SMState) (hr : Reachable s)
    (td : CarTelemetryData) (ld : LapData) (hd : Wire.PacketHeader)
    (dp : TelemetryDataPoint)
    (hm : SMEvent.telemetryStored dp ∈ (processTelemetryData td ld hd s).2) :
    0 ≤ dp.distanceFromStart := by
  have hinv := reachable_lastStored s hr
  obtain ⟨s3, hdisj, hmem⟩ := process_emit td ld hd s dp hm
  obtain ⟨sess, lap, -, -, hgate, hdp⟩ := store_emit td ld s3 dp hmem
  have : dp.distanceFromStart = ⌊ld.lapDistance⌋ := by
    rw [hdp]; rfl
  rcases hdisj with hd1 | hd1 <;> omega

theorem samples_nonneg_witness :
    Reachable exInLap ∧
    SMEvent.telemetryStored (mkDataPoint exTd (exRunLd 3)
        exSession exLap) ∈
      (processTelemetryData exTd (exRunLd 3) exHd exInLap).2 ∧
    0 ≤ (mkDataPoint exTd (exRunLd 3)
        exSession exLap).distanceFromStart :=
  have hr : Reachable exInLap :=
    Reachable.update exTd exLapStart exHd exActive
      (Reachable.start "S1" "Alice" ⟨none, none, none⟩ initialState
        Reachable.init)
  ⟨hr, by decide,
   samples_nonneg exInLap hr exTd (exRunLd 3) exHd
     (mkDataPoint exTd (exRunLd 3) exSession exLap) (by decide)⟩

/-- C7: the RL, RR, FL, FR wheel order is preserved end to end —
    every emitted TelemetrySample's wheel-suffixed fields equal
    elements 0, 1, 2, 3 of the corresponding array of the telemetry
    frame it was built from, and the wire decoder fills each
    four-element array with the wire values in wire order. -/
theorem wheelOrder_endToEnd :
    (∀ (td : CarTelemetryData) (ld : LapData) (hd : Wire.PacketHeader)
        (s : SMState) (dp : TelemetryDataPoint),
      SMEvent.telemetryStored dp ∈ (processTelemetryData td ld hd s).2 →
      dp.brakeTempRl = td.brakesTemperature.e0 ∧
      dp.brakeTempRr = td.brakesTemperature.e1 ∧
      dp.brakeTempFl = td.brakesTemperature.e2 ∧
      dp.brakeTempFr = td.brakesTemperature.e3 ∧
      dp.tyreSurfaceTempRl = td.tyresSurfaceTemperature.e0 ∧
      dp.tyreSurfaceTempRr = td.tyresSurfaceTemperature.e1 ∧
      dp.tyreSurfaceTempFl = td.tyresSurfaceTemperature.e2 ∧
      dp.tyreSurfaceTempFr = td.tyresSurfaceTemperature.e3 ∧
      dp.tyreInnerTempRl = td.tyresInnerTemperature.e0 ∧
      dp.tyreInnerTempRr = td.tyresInnerTemperature.e1 ∧
      dp.tyreInnerTempFl = td.tyresInnerTemperature.e2 ∧
      dp.tyreInnerTempFr = td.tyresInnerTemperature.e3 ∧
      dp.tyrePressureRl = td.tyresPressure.e0 ∧
      dp.tyrePressureRr = td.tyresPressure.e1 ∧
      dp.tyrePressureFl = td.tyresPressure.e2 ∧
      dp.tyrePressureFr = td.tyresPressure.e3 ∧
      dp.surfaceTypeRl = td.surfaceType.e0 ∧
      dp.surfaceTypeRr = td.surfaceType.e1 ∧
      dp.surfaceTypeFl = td.surfaceType.e2 ∧
      dp.surfaceTypeFr = td.surfaceType.e3) ∧
    (∀ (buf : List Nat) (off : Nat), off + 60 ≤ buf.length →
      ∃ c, Wire.parseCarTelemetryData buf off = some c ∧
        c.brakesTemperature =
          ⟨Wire.leVal buf (off + 22) 2, Wire.leVal buf (off + 24) 2,
           Wire.leVal buf (off + 26) 2, Wire.leVal buf (off + 28) 2⟩ ∧
        c.tyresSurfaceTemperature =
          ⟨buf.getD (off + 30) 0, buf.getD (off + 31) 0,
           buf.getD (off + 32) 0, buf.getD (off + 33) 0⟩ ∧
        c.tyresInnerTemperature =
          ⟨buf.getD (off + 34) 0, buf.getD (off + 35) 0,
           buf.getD (off + 36) 0, buf.getD (off + 37) 0⟩ ∧
        c.tyresPressure =
          ⟨Wire.leVal buf (off + 40) 4, Wire.leVal buf (off + 44) 4,
           Wire.leVal buf (off + 48) 4, Wire.leVal buf (off + 52) 4⟩ ∧
        c.surfaceType =
          ⟨buf.getD (off + 56) 0, buf.getD (off + 57) 0,
           buf.getD (off + 58) 0, buf.getD (off + 59) 0⟩) := by
  constructor
  · intro td ld hd s dp hm
    obtain ⟨s3, -, hmem⟩ := process_emit td ld hd s dp hm
    obtain ⟨sess, lap, -, -, -, hdp⟩ := store_emit td ld s3 dp hmem
    subst hdp
    simp [mkDataPoint]
  · intro buf off h
    exact ⟨Wire.carVal buf off, Wire.parseCarTelemetryData_ok buf off h,
      rfl, rfl, rfl, rfl, rfl⟩

theorem wheelOrder_endToEnd_witness :
    (SMEvent.telemetryStored (mkDataPoint exTd exLapStart exSession exLap)
        ∈ (processTelemetryData exTd exLapStart exHd exActive).2 ∧
      (mkDataPoint exTd exLapStart exSession exLap).brakeTempRl =
        exTd.brakesTemperature.e0) ∧
    (0 + 60 ≤ (List.range 60).length ∧
      ∃ c, Wire.parseCarTelemetryData (List.range 60) 0 = some c ∧
        c.brakesTemperature =
          ⟨Wire.leVal (List.range 60) 22 2, Wire.leVal (List.range 60) 24 2,
           Wire.leVal (List.range 60) 26 2, Wire.leVal (List.range 60) 28 2⟩) :=
  ⟨⟨by decide,
    (wheelOrder_endToEnd.1 exTd exLapStart exHd exActive
      (mkDataPoint exTd exLapStart exSession exLap) (by decide)).1⟩,
   ⟨by simp,
    by
      obtain ⟨c, hc, hb, -⟩ :=
        wheelOrder_endToEnd.2 (List.range 60) 0 (by simp)
      exact ⟨c, hc, by simpa using hb⟩⟩⟩

end SM

end ApexData
